import Mathlib

/-!
Shallow embedding of `pyuv_cffi/__init__.py` (the pyuv_cffi event-loop
binding): the `Loop`, `Handle`, `Signal` and `Poll` classes, together with a
minimal model of the libuv substrate calls the Python code makes
(`uv_default_loop`, `pyuv_loop_new`/`pyuv_loop_del`, `uv_signal_start`,
`uv_signal_stop`).  Machine-level details of libuv are modelled only to the
extent the Python code observes them.  Python attribute access that can fail
(reading an attribute that was never set) is modelled with `Option` fields
and `Except`.
-/

/-- Identifier standing for a Python callback object (closure identity). -/
abbrev CbId := Nat

/-- Errors observable at the Python level in this module.  `attributeError`
models Python's AttributeError on reading an instance attribute that was
never assigned. -/
inductive PyErr
  | attributeError
  | resourceError
  | invalidState
deriving DecidableEq, Repr

/-- Model of a Python method's return value: a plain method falling off the
end returns `None` (`pyNone`); `Poll.start`/`Poll.stop` return the
`NotImplemented` sentinel. -/
inductive PyRet
  | pyNone
  | notImplemented
deriving DecidableEq, Repr

/-!
Loop.  The Python instance attributes are:
`loop_h` (the uv loop pointer), and the boolean flag that records whether
this instance owns the loop.  The allocating constructor (`__init__`,
lines 23-25) stores that flag under the name `_loop_h_allocated`, while
`default_loop` (lines 27-32) stores it under the name `loop_h_allocated`
(no leading underscore).  Both spellings are therefore modelled, each as an
`Option Bool` that is `none` when the attribute was never assigned on the
instance.
-/

/-- State of a Python `Loop` instance. -/
structure LoopObj where
  loop_h : Nat
  /-- attribute `_loop_h_allocated`: assigned by `__init__` and by `_free`. -/
  _loop_h_allocated : Option Bool
  /-- attribute `loop_h_allocated`: assigned only by `default_loop`. -/
  loop_h_allocated : Option Bool
deriving DecidableEq, Repr

/-- Process-wide libuv state observed by this module: the lazily created
default loop handle, and a counter from which fresh handles are drawn. -/
structure UVGlobal where
  defaultLoopHandle : Option Nat
  nextHandle : Nat
deriving DecidableEq, Repr

/-- Model of libuv's `uv_default_loop`: returns the process-wide default
loop, creating it on first use; every later call returns the same handle
and leaves the global state unchanged. -/
def uv_default_loop (g : UVGlobal) : Nat × UVGlobal :=
  match g.defaultLoopHandle with
  | some h => (h, g)
  | none => (g.nextHandle, ⟨some g.nextHandle, g.nextHandle + 1⟩)

/-- `Loop.__init__` (lines 23-25): `self.loop_h = libuv.pyuv_loop_new()`;
`self._loop_h_allocated = True`.  The fresh handle returned by
`pyuv_loop_new` is passed in as `fresh`. -/
def Loop.init (fresh : Nat) : LoopObj :=
  { loop_h := fresh, _loop_h_allocated := some true, loop_h_allocated := none }

/-- `Loop.default_loop` (lines 27-32): `loop.loop_h = libuv.uv_default_loop()`;
`loop.loop_h_allocated = False` (note: this attribute name has no leading
underscore in the source, so `_loop_h_allocated` is left unassigned). -/
def Loop.default_loop (g : UVGlobal) : LoopObj × UVGlobal :=
  let p := uv_default_loop g
  ({ loop_h := p.1, _loop_h_allocated := none, loop_h_allocated := some false }, p.2)

/-- `Loop._free` (lines 47-50): reads `self._loop_h_allocated` (raising
AttributeError if that attribute was never assigned); if it is true, calls
`libuv.pyuv_loop_del(self.loop_h)` and sets it to false.  The returned
`Bool` records whether `pyuv_loop_del` was invoked by this call. -/
def Loop._free (l : LoopObj) : Except PyErr (LoopObj × Bool) :=
  match l._loop_h_allocated with
  | none => .error .attributeError
  | some b =>
    if b then .ok ({ l with _loop_h_allocated := some false }, true)
    else .ok (l, false)

/-- `Loop.close` (lines 38-39): `self._free()`. -/
def Loop.close (l : LoopObj) : Except PyErr (LoopObj × Bool) :=
  Loop._free l

/-- Repeat `close()` a number of times, threading state and summing how many
of the calls actually invoked `pyuv_loop_del`. -/
def Loop.closeTimes (l : LoopObj) : Nat → Except PyErr (LoopObj × Nat)
  | 0 => .ok (l, 0)
  | n + 1 =>
    match Loop.close l with
    | .error e => .error e
    | .ok (l', b) =>
      match Loop.closeTimes l' n with
      | .error e => .error e
      | .ok (l'', k) => .ok (l'', (if b then 1 else 0) + k)

/-- Iterated calls of `Loop.default_loop` against the process-wide state:
`defaultLoopSeq g n` is the result of the `(n+1)`-th call. -/
def Loop.defaultLoopSeq (g : UVGlobal) : Nat → LoopObj × UVGlobal
  | 0 => Loop.default_loop g
  | n + 1 => Loop.default_loop (Loop.defaultLoopSeq g n).2

/-!
Handle (lines 57-72): base class holding the `_ref` attribute.  The `ref`
property getter returns `self._ref`; the setter's two branches are both
`pass`, so it mutates nothing.
-/

/-- State of a Python `Handle` instance (base class). -/
structure HandleObj where
  _ref : Bool
deriving DecidableEq, Repr

/-- `Handle.__init__` (lines 58-59): `self._ref = False`. -/
def Handle.init : HandleObj := { _ref := false }

/-- The `ref` property getter (lines 61-63): returns `self._ref`. -/
def Handle.refGet (h : HandleObj) : Bool := h._ref

/-- The `ref` property setter (lines 65-72): both the `value` branch and the
`not value` branch are `pass`, so the state is returned unchanged. -/
def Handle.refSet (h : HandleObj) (value : Bool) : HandleObj :=
  if value then h else h

/-!
Signal (lines 75-111).  Each instance holds its uv signal handle `sig_h`,
the allocation flag `_sig_h_allocated`, and `_ffi_cb` (the FFI callback
cdata kept alive while registered).  The substrate-side registration that
`uv_signal_start`/`uv_signal_stop` maintain for this handle is modelled as
the field `watch`: `some (cb, v)` when the handle is watching signal `v`
with the C callback whose wrapper invokes Python callback `cb`.
-/

/-- State of a Python `Signal` instance together with the substrate
registration for its `sig_h`. -/
structure SignalObj extends HandleObj where
  loop_h : Nat
  sig_h : Nat
  _sig_h_allocated : Bool
  _ffi_cb : Option CbId
  /-- substrate side: the watch registered on `sig_h`, as (callback, signum). -/
  watch : Option (CbId × Nat)
deriving DecidableEq, Repr

/-- Model of the substrate's validity check for a signal number: libuv's
`uv_signal_start` rejects signal numbers outside the meaningful range with
`UV_EINVAL` and registers nothing. -/
def validSig (v : Nat) : Bool := decide (1 ≤ v ∧ v ≤ 31)

/-- Model of `uv_signal_start(sig_h, ffi_cb, sig_num)`: on a valid signal
number it records the watch and returns 0; otherwise it registers nothing
and returns a negative status (`UV_EINVAL = -22`). -/
def uv_signal_start (s : SignalObj) (cb : CbId) (v : Nat) : SignalObj × Int :=
  if validSig v then ({ s with watch := some (cb, v) }, 0) else (s, -22)

/-- Model of `uv_signal_stop(sig_h)`: unregisters the watch. -/
def uv_signal_stop (s : SignalObj) : SignalObj :=
  { s with watch := none }

/-- `Signal.__init__` (lines 76-83): binds the loop, allocates `sig_h` via
`pyuv_signal_new(loop.loop_h)` (the fresh handle is passed in), sets
`_sig_h_allocated = True` and `_ffi_cb = None`.  No check of the loop is
made; the second component is the exception raised, which is always
`none`. -/
def Signal.init (loop : LoopObj) (fresh : Nat) : SignalObj × Option PyErr :=
  ({ _ref := false, loop_h := loop.loop_h, sig_h := fresh,
     _sig_h_allocated := true, _ffi_cb := none, watch := none }, none)

/-- `Signal.start` (lines 85-97): builds the FFI wrapper around `callback`,
stores it in `self._ffi_cb`, then calls `uv_signal_start`, whose return
status is discarded.  The second component is the exception raised, which
is always `none`. -/
def Signal.start (s : SignalObj) (cb : CbId) (v : Nat) : SignalObj × Option PyErr :=
  let s1 := { s with _ffi_cb := some cb }
  let p := uv_signal_start s1 cb v
  (p.1, none)

/-- First statement of `Signal.stop` (line 100): `self._ffi_cb = None`. -/
def Signal.stopClear (s : SignalObj) : SignalObj :=
  { s with _ffi_cb := none }

/-- `Signal.stop` (lines 99-101): clears `_ffi_cb`, then calls
`uv_signal_stop(self.sig_h)`. -/
def Signal.stop (s : SignalObj) : SignalObj :=
  uv_signal_stop (Signal.stopClear s)

/-- `Signal._free` (lines 103-107): sets `_ffi_cb = None`; if
`_sig_h_allocated`, calls `pyuv_signal_del(self.sig_h)` (which destroys the
handle, removing any remaining substrate watch) and clears the flag. -/
def Signal._free (s : SignalObj) : SignalObj :=
  let s1 := { s with _ffi_cb := none }
  if s1._sig_h_allocated then
    { s1 with _sig_h_allocated := false, watch := none }
  else s1

/-- Delivery of one OS signal occurrence with value `v`: the substrate
invokes the registered C callback iff this handle has a watch for `v`; the
FFI wrapper then invokes the Python callback captured at `start` time.
Returns the Python callback invoked, if any. -/
def Signal.deliver (s : SignalObj) (v : Nat) : Option CbId :=
  match s.watch with
  | some p => if p.2 = v then some p.1 else none
  | none => none

/-- Operations a caller can perform on a `Signal` handle (with `free` the
destructor step `__del__` performs last). -/
inductive SigOp
  | start (cb : CbId) (v : Nat)
  | stop
  | free
  | setRef (value : Bool)
deriving DecidableEq, Repr

/-- Effect of one operation on a `Signal` instance, as coded. -/
def sigStep (s : SignalObj) : SigOp → SignalObj
  | .start cb v => (Signal.start s cb v).1
  | .stop => Signal.stop s
  | .free => Signal._free s
  | .setRef b => { s with toHandleObj := Handle.refSet s.toHandleObj b }

/-- Lifecycle states of a signal handle as named by the specification
(section 4.3). -/
inductive SigLifecycle
  | created
  | started
  | stopped
  | closed
deriving DecidableEq, Repr

/-- Modelled from the spec: the lifecycle state machine of section 4.3.
`start` moves to STARTED, `stop` to STOPPED, `free` (resource release) to
CLOSED, which is terminal; `ref` toggling is orthogonal to the lifecycle
(section 4.2). -/
def lifecycleStep (st : SigLifecycle) : SigOp → SigLifecycle
  | .start _ _ => if st = .closed then .closed else .started
  | .stop => if st = .closed then .closed else .stopped
  | .free => .closed
  | .setRef _ => st

/-!
Poll (lines 114-123).
-/

/-- State of a Python `Poll` instance together with the (never-registered)
substrate descriptor watch for its handle. -/
structure PollObj extends HandleObj where
  loop_h : Nat
  fd : Nat
  _poll_handle : Nat
  /-- substrate side: descriptor watch, as (event mask, callback). -/
  watch : Option (Nat × CbId)
deriving DecidableEq, Repr

/-- `Poll.__init__` (lines 115-117): `super().__init__()`;
`self._poll_handle = libuv.pyuv_poll_new(loop.loop_h, fd)` (the fresh
handle is passed in). -/
def Poll.init (loop : LoopObj) (fd : Nat) (fresh : Nat) : PollObj :=
  { _ref := false, loop_h := loop.loop_h, fd := fd, _poll_handle := fresh,
    watch := none }

/-- `Poll.start` (lines 119-120): `return NotImplemented`; nothing is
registered and the state is untouched. -/
def Poll.start (p : PollObj) (events : Nat) (cb : CbId) : PollObj × PyRet :=
  (p, .notImplemented)

/-- `Poll.stop` (lines 122-123): `return NotImplemented`; nothing is
unregistered and the state is untouched. -/
def Poll.stop (p : PollObj) : PollObj × PyRet :=
  (p, .notImplemented)

/-- Operations a caller can perform on a `Poll` handle. -/
inductive PollOp
  | start (events : Nat) (cb : CbId)
  | stop
  | setRef (value : Bool)
deriving DecidableEq, Repr

/-- Effect of one operation on a `Poll` instance, as coded. -/
def pollStep (p : PollObj) : PollOp → PollObj
  | .start e cb => (Poll.start p e cb).1
  | .stop => (Poll.stop p).1
  | .setRef b => { p with toHandleObj := Handle.refSet p.toHandleObj b }

/-!
Helper lemmas (shared across claims).
-/

/-- The `ref` setter never changes the handle state: both branches are
`pass`. -/
theorem Handle.refSet_id (h : HandleObj) (b : Bool) : Handle.refSet h b = h := by
  cases b <;> rfl

/-- After `Signal.start`, the stored FFI callback is the one just built. -/
theorem Signal.start_ffi_cb (s : SignalObj) (cb : CbId) (v : Nat) :
    (Signal.start s cb v).1._ffi_cb = some cb := by
  unfold Signal.start uv_signal_start
  split <;> rfl

/-- `Signal.start` preserves the `_ref` attribute. -/
theorem Signal.start_ref (s : SignalObj) (cb : CbId) (v : Nat) :
    (Signal.start s cb v).1._ref = s._ref := by
  unfold Signal.start uv_signal_start
  split <;> rfl

/-- After `Signal.stop`, no FFI callback is stored. -/
theorem Signal.stop_ffi_cb (s : SignalObj) : (Signal.stop s)._ffi_cb = none := rfl

/-- After `Signal._free`, no FFI callback is stored. -/
theorem Signal.free_ffi_cb (s : SignalObj) : (Signal._free s)._ffi_cb = none := by
  unfold Signal._free
  cases h : s._sig_h_allocated <;> simp [h]

/-- `Signal._free` preserves the `_ref` attribute. -/
theorem Signal.free_ref (s : SignalObj) : (Signal._free s)._ref = s._ref := by
  unfold Signal._free
  cases h : s._sig_h_allocated <;> simp [h]

/-- Every `Signal` operation preserves the `_ref` attribute: no operation of
the class ever writes it after `__init__`. -/
theorem sigStep_ref (s : SignalObj) (op : SigOp) : (sigStep s op)._ref = s._ref := by
  cases op with
  | start cb v => exact Signal.start_ref s cb v
  | stop => rfl
  | free => exact Signal.free_ref s
  | setRef b => rw [sigStep, Handle.refSet_id]

/-- Folding any operation sequence over a `Signal` preserves `_ref`. -/
theorem foldl_sigStep_ref (ops : List SigOp) :
    ∀ s : SignalObj, (ops.foldl sigStep s)._ref = s._ref := by
  induction ops with
  | nil => intro s; rfl
  | cons op ops ih => intro s; rw [List.foldl_cons, ih, sigStep_ref]

/-- Every `Poll` operation preserves the `_ref` attribute. -/
theorem pollStep_ref (p : PollObj) (op : PollOp) : (pollStep p op)._ref = p._ref := by
  cases op with
  | start e cb => rfl
  | stop => rfl
  | setRef b => rw [pollStep, Handle.refSet_id]

/-- Folding any operation sequence over a `Poll` preserves `_ref`. -/
theorem foldl_pollStep_ref (ops : List PollOp) :
    ∀ p : PollObj, (ops.foldl pollStep p)._ref = p._ref := by
  induction ops with
  | nil => intro p; rfl
  | cons op ops ih => intro p; rw [List.foldl_cons, ih, pollStep_ref]

/-- On a loop whose flag is already false (resource released), any number of
further `close()` calls succeeds, changes nothing, and never invokes
`pyuv_loop_del`. -/
theorem closeTimes_deallocated (l : LoopObj) (h : l._loop_h_allocated = some false) :
    ∀ n, Loop.closeTimes l n = .ok (l, 0) := by
  intro n
  induction n with
  | zero => rfl
  | succ n ih => simp [Loop.closeTimes, Loop.close, Loop._free, h, ih]

/-- When the global default loop is already created, `default_loop` returns
it and leaves the global state unchanged. -/
theorem default_loop_fix (g : UVGlobal) (h : Nat) (hg : g.defaultLoopHandle = some h) :
    Loop.default_loop g =
      ({ loop_h := h, _loop_h_allocated := none, loop_h_allocated := some false }, g) := by
  simp [Loop.default_loop, uv_default_loop, hg]

/-- After any `default_loop` call the global default-loop slot holds exactly
the handle that call returned. -/
theorem default_loop_global (g : UVGlobal) :
    (Loop.default_loop g).2.defaultLoopHandle = some (Loop.default_loop g).1.loop_h := by
  unfold Loop.default_loop uv_default_loop
  cases hg : g.defaultLoopHandle with
  | none => rfl
  | some h => exact hg

/-- Along any sequence of `default_loop` calls, every call returns the
handle of the first call, and the global slot keeps holding it. -/
theorem defaultLoopSeq_stable (g : UVGlobal) (n : Nat) :
    (Loop.defaultLoopSeq g n).1.loop_h = (Loop.default_loop g).1.loop_h
    ∧ (Loop.defaultLoopSeq g n).2.defaultLoopHandle = some (Loop.default_loop g).1.loop_h := by
  induction n with
  | zero => exact ⟨rfl, default_loop_global g⟩
  | succ n ih =>
    have hfix := default_loop_fix (Loop.defaultLoopSeq g n).2 _ ih.2
    constructor
    · show (Loop.default_loop (Loop.defaultLoopSeq g n).2).1.loop_h = _
      rw [hfix]
    · show (Loop.default_loop (Loop.defaultLoopSeq g n).2).2.defaultLoopHandle = _
      rw [hfix]
      exact ih.2

/-- Invariant carrier for traces without `free`: if the stored callback is
present exactly in the STARTED state and the lifecycle is not CLOSED, the
same holds after folding any free-less operation sequence. -/
theorem sig_no_free_inv (ops : List SigOp) :
    ∀ (s : SignalObj) (st : SigLifecycle),
      SigOp.free ∉ ops → st ≠ .closed → (s._ffi_cb.isSome ↔ st = .started) →
      ((ops.foldl sigStep s)._ffi_cb.isSome ↔ ops.foldl lifecycleStep st = .started)
        ∧ ops.foldl lifecycleStep st ≠ .closed := by
  induction ops with
  | nil => exact fun s st _ h2 h3 => ⟨h3, h2⟩
  | cons op ops ih =>
    intro s st hfree hst hinv
    have hop : op ≠ SigOp.free := fun h => hfree (h ▸ List.mem_cons_self op ops)
    have hfree' : SigOp.free ∉ ops := fun h => hfree (List.mem_cons_of_mem _ h)
    rw [List.foldl_cons, List.foldl_cons]
    cases op with
    | start cb v =>
      apply ih _ _ hfree'
      · simp [lifecycleStep, hst]
      · simp [sigStep, Signal.start_ffi_cb, lifecycleStep, hst]
    | stop =>
      apply ih _ _ hfree'
      · simp [lifecycleStep, hst]
      · simp [sigStep, Signal.stop_ffi_cb, lifecycleStep, hst]
    | free => exact absurd rfl hop
    | setRef b =>
      apply ih _ _ hfree'
      · simpa [lifecycleStep] using hst
      · simpa [sigStep, Handle.refSet_id, lifecycleStep] using hinv

/-- Concrete closed loop: the state of `Loop()` after its first `close()`. -/
def closedLoop : LoopObj :=
  { loop_h := 0, _loop_h_allocated := some false, loop_h_allocated := none }

/-!
Claim theorems.
-/

/-- C1: `close()` on a Loop obtained via `default_loop` is claimed to be a
harmless no-op.  In the code it is not: `default_loop` assigns the flag
under the name `loop_h_allocated` (no leading underscore) while `_free`
reads `_loop_h_allocated`, so `close()` on a default loop raises
AttributeError, for every global substrate state. -/
theorem C1_close_default_loop_raises (g : UVGlobal) :
    Loop.close (Loop.default_loop g).1 = .error PyErr.attributeError := rfl

/-- C2: on a Loop built by the allocating constructor, the first `close()`
invokes `pyuv_loop_del`, and any number of further `close()` calls raises
no error and never frees again: over `n + 1` consecutive closes the total
number of `pyuv_loop_del` invocations is exactly one. -/
theorem C2_owned_close_frees_once (fresh n : Nat) :
    Loop.close (Loop.init fresh) =
      .ok ({ loop_h := fresh, _loop_h_allocated := some false,
             loop_h_allocated := none }, true)
    ∧ Loop.closeTimes (Loop.init fresh) (n + 1) =
      .ok ({ loop_h := fresh, _loop_h_allocated := some false,
             loop_h_allocated := none }, 1) := by
  refine ⟨rfl, ?_⟩
  have hc := closeTimes_deallocated
    { loop_h := fresh, _loop_h_allocated := some false, loop_h_allocated := none }
    rfl n
  simp [Loop.closeTimes, Loop.close, Loop._free, Loop.init, hc]

/-- C3: along every operation sequence on a fresh Signal handle in which the
destructor step `free` occurs at most as the final operation, the stored
callback closure is present exactly when the spec lifecycle state is
STARTED. -/
theorem C3_callback_present_iff_started (loop : LoopObj) (fresh : Nat)
    (ops : List SigOp) (hfree : SigOp.free ∉ ops.dropLast) :
    ((ops.foldl sigStep (Signal.init loop fresh).1)._ffi_cb.isSome
      ↔ ops.foldl lifecycleStep SigLifecycle.created = .started) := by
  rcases List.eq_nil_or_concat ops with h | ⟨l, a, h⟩
  · subst h; simp [Signal.init]
  · subst h
    simp only [List.concat_eq_append] at hfree ⊢
    rw [List.dropLast_concat] at hfree
    have base := sig_no_free_inv l (Signal.init loop fresh).1 .created hfree
      (by simp) (by simp [Signal.init])
    rw [List.foldl_append, List.foldl_append]
    simp only [List.foldl_cons, List.foldl_nil]
    cases a with
    | start cb v => simp [sigStep, Signal.start_ffi_cb, lifecycleStep, base.2]
    | stop => simp [sigStep, Signal.stop_ffi_cb, lifecycleStep, base.2]
    | free => simp [sigStep, Signal.free_ffi_cb, lifecycleStep]
    | setRef b => simpa [sigStep, Handle.refSet_id] using base.1

/-- Witness for C3 at the concrete trace start-stop-free on a concrete
fresh handle. -/
theorem C3_witness :
    SigOp.free ∉ ([SigOp.start 5 2, SigOp.stop, SigOp.free]).dropLast
    ∧ (([SigOp.start 5 2, SigOp.stop, SigOp.free].foldl sigStep
          (Signal.init (Loop.init 0) 1).1)._ffi_cb.isSome
        ↔ [SigOp.start 5 2, SigOp.stop,
            SigOp.free].foldl lifecycleStep SigLifecycle.created = .started) :=
  ⟨by decide,
   C3_callback_present_iff_started (Loop.init 0) 1
     [SigOp.start 5 2, SigOp.stop, SigOp.free] (by decide)⟩

/-- C4: after `start(cb, v)` immediately followed by `stop()`, delivery of
any signal occurrence invokes no callback at all (so never `cb`); moreover
the callback reference is already cleared by the first statement of
`stop()`, before `uv_signal_stop` unregisters the watch. -/
theorem C4_stop_prevents_delivery (s : SignalObj) (cb : CbId) (v w : Nat) :
    Signal.deliver (Signal.stop (Signal.start s cb v).1) w = none
    ∧ (Signal.stopClear (Signal.start s cb v).1)._ffi_cb = none :=
  ⟨rfl, rfl⟩

/-- C5 counterexample: at signal number 0 the substrate registration fails
(`uv_signal_start` returns a negative status), yet `start` on a fresh
handle raises nothing - not the claimed ResourceError. -/
theorem C5_counterexample :
    validSig 0 = false
    ∧ (uv_signal_start { (Signal.init (Loop.init 0) 1).1 with
          _ffi_cb := some 7 } 7 0).2 = -22
    ∧ (Signal.start (Signal.init (Loop.init 0) 1).1 7 0).2
        ≠ some PyErr.resourceError := by
  refine ⟨rfl, rfl, ?_⟩
  decide

/-- C5 amended: `start` never raises: the status returned by
`uv_signal_start` is discarded, so registration failures are silently
swallowed and the caller is never told. -/
theorem C5_amended_start_never_raises (s : SignalObj) (cb : CbId) (v : Nat) :
    (Signal.start s cb v).2 = none := rfl

/-- C6 counterexample: closing a fresh allocating-constructor Loop yields
`closedLoop`; constructing a Signal against that closed loop raises
nothing - not the claimed InvalidState. -/
theorem C6_counterexample :
    Loop.close (Loop.init 0) = .ok (closedLoop, true)
    ∧ (Signal.init closedLoop 1).2 ≠ some PyErr.invalidState := by
  refine ⟨rfl, ?_⟩
  decide

/-- C6 amended: constructing a Signal against an already-closed Loop makes
no liveness check and does not fail: it raises nothing and silently binds
the new handle to the stale loop handle. -/
theorem C6_amended_no_liveness_check (l : LoopObj) (fresh : Nat)
    (hclosed : l._loop_h_allocated = some false) :
    (Signal.init l fresh).2 = none
    ∧ (Signal.init l fresh).1.loop_h = l.loop_h :=
  ⟨rfl, rfl⟩

/-- Witness for the amended C6 at the concrete closed loop. -/
theorem C6_amended_witness :
    closedLoop._loop_h_allocated = some false
    ∧ ((Signal.init closedLoop 1).2 = none
        ∧ (Signal.init closedLoop 1).1.loop_h = closedLoop.loop_h) :=
  ⟨rfl, C6_amended_no_liveness_check closedLoop 1 rfl⟩

/-- C7: for every Poll handle and all arguments, `start` and `stop` return
the `NotImplemented` sentinel (never the plain-success `None`), leave the
state untouched, and never register or unregister a descriptor watch. -/
theorem C7_poll_unsupported (p : PollObj) (events : Nat) (cb : CbId) :
    Poll.start p events cb = (p, PyRet.notImplemented)
    ∧ Poll.stop p = (p, PyRet.notImplemented)
    ∧ (Poll.start p events cb).2 ≠ PyRet.pyNone
    ∧ (Poll.stop p).2 ≠ PyRet.pyNone
    ∧ (Poll.start p events cb).1.watch = p.watch
    ∧ (Poll.stop p).1.watch = p.watch := by
  refine ⟨rfl, rfl, ?_, ?_, rfl, rfl⟩ <;> simp [Poll.start, Poll.stop]

/-- C8: repeated calls of `default_loop` always succeed and every call
returns a Loop wrapping the same underlying substrate loop handle,
whatever the starting global state and whichever two calls are compared. -/
theorem C8_default_loop_singleton (g : UVGlobal) (n m : Nat) :
    (Loop.defaultLoopSeq g n).1.loop_h = (Loop.defaultLoopSeq g m).1.loop_h := by
  rw [(defaultLoopSeq_stable g n).1, (defaultLoopSeq_stable g m).1]

/-- C9: the restart round-trip `start(cb, v); stop(); start(cb2, v)` raises
no error at any step, and from the resulting state every delivered signal
occurrence either invokes no callback or invokes `cb2` - never the old
`cb` (when the two differ). -/
theorem C9_restart_round_trip (s : SignalObj) (cb cb2 : CbId) (v w : Nat) :
    (Signal.start s cb v).2 = none
    ∧ (Signal.start (Signal.stop (Signal.start s cb v).1) cb2 v).2 = none
    ∧ (Signal.deliver
          (Signal.start (Signal.stop (Signal.start s cb v).1) cb2 v).1 w = none
        ∨ Signal.deliver
          (Signal.start (Signal.stop (Signal.start s cb v).1) cb2 v).1 w
            = some cb2) := by
  refine ⟨rfl, rfl, ?_⟩
  unfold Signal.start Signal.stop Signal.stopClear uv_signal_stop
    uv_signal_start Signal.deliver
  cases hv : validSig v with
  | false => simp [hv]
  | true => by_cases hw : v = w <;> simp [hv, hw]

/-- C10: the `ref` setter never changes the stored flag, and on both Signal
and Poll handles the `ref` property reads false at creation and after every
operation sequence, including any assignments to `ref`. -/
theorem C10_ref_always_false (l : LoopObj) (f1 f2 fd : Nat)
    (ops : List SigOp) (pops : List PollOp) (h : HandleObj) (b : Bool) :
    Handle.refSet h b = h
    ∧ Handle.refGet (ops.foldl sigStep (Signal.init l f1).1).toHandleObj = false
    ∧ Handle.refGet (pops.foldl pollStep (Poll.init l fd f2)).toHandleObj = false := by
  refine ⟨Handle.refSet_id h b, ?_, ?_⟩
  · show (ops.foldl sigStep (Signal.init l f1).1)._ref = false
    rw [foldl_sigStep_ref]
    rfl
  · show (pops.foldl pollStep (Poll.init l fd f2))._ref = false
    rw [foldl_pollStep_ref]
    rfl
